import Mathlib

/-!
Shallow embedding of `src/dbus-signal.c` (dbus-examples): a single-file
GLib/D-Bus example that connects to the session bus, requests the name
"org.DBusTest.SignalTest", subscribes to the daemon's "NameLost" signal,
arms a 1000 ms one-shot timer that releases the name, and runs a GLib main
loop until the NameLost callback quits it.

The external bus and the event loop are modelled by an oracle (the results
the bus calls return) and a list of loop events (timer expiries and signal
deliveries).  The program itself is embedded as functions producing a trace
of observable events (bus calls, stdout/stderr lines, loop operations).
A NULL-pointer dereference is modelled as a crash outcome.
-/

namespace DBusSignal

/-- `DBusError` (dbus): only the `message` field is read by the program. -/
structure DBusError where
  message : String
deriving DecidableEq

/-- `GError` (GLib): only the `message` field is read by the program. -/
structure GError where
  message : String
deriving DecidableEq

/-- `DBUS_REQUEST_NAME_REPLY_PRIMARY_OWNER` (dbus-shared.h). -/
def DBUS_REQUEST_NAME_REPLY_PRIMARY_OWNER : Int := 1
/-- `DBUS_REQUEST_NAME_REPLY_IN_QUEUE` (dbus-shared.h). -/
def DBUS_REQUEST_NAME_REPLY_IN_QUEUE : Int := 2
/-- `DBUS_REQUEST_NAME_REPLY_EXISTS` (dbus-shared.h). -/
def DBUS_REQUEST_NAME_REPLY_EXISTS : Int := 3
/-- `DBUS_REQUEST_NAME_REPLY_ALREADY_OWNER` (dbus-shared.h). -/
def DBUS_REQUEST_NAME_REPLY_ALREADY_OWNER : Int := 4
/-- `DBUS_RELEASE_NAME_REPLY_RELEASED` (dbus-shared.h). -/
def DBUS_RELEASE_NAME_REPLY_RELEASED : Int := 1
/-- `DBUS_RELEASE_NAME_REPLY_NON_EXISTENT` (dbus-shared.h). -/
def DBUS_RELEASE_NAME_REPLY_NON_EXISTENT : Int := 2
/-- `DBUS_RELEASE_NAME_REPLY_NOT_OWNER` (dbus-shared.h). -/
def DBUS_RELEASE_NAME_REPLY_NOT_OWNER : Int := 3
/-- `DBUS_NAME_FLAG_ALLOW_REPLACEMENT` (dbus-shared.h). -/
def DBUS_NAME_FLAG_ALLOW_REPLACEMENT : Int := 1

/-- The bus type argument of `dbus_g_bus_get`. -/
inductive DBusBusType
  | session
  | system
  | starter
deriving DecidableEq

/-- GLib type tags as used in `dbus_g_proxy_add_signal` (the program passes
`G_TYPE_STRING, G_TYPE_INVALID`, i.e. one string-typed argument). -/
inductive GType
  | gstring
deriving DecidableEq

/-- Observable events of one process run: bus-library calls with the
arguments the program passes, diagnostic output lines (`print` = stdout via
`g_print`, `printerr` = stderr via `g_printerr`), and loop operations. -/
inductive Event
  | gTypeInit
  | busGetCall (bus : DBusBusType)
  | getConnection
  | requestNameCall (name : String) (flags : Int) (errPassed : Option DBusError)
  | releaseNameCall (name : String) (errPassed : Option DBusError)
  | mainLoopNew
  | proxyNew (service : String) (path : String) (iface : String)
  | addSignal (signal : String) (argTypes : List GType)
  | connectSignal (signal : String) (ctx : Option Unit)
  | disconnectSignal (signal : String)
  | timeoutAdd (ms : Nat)
  | loopRun
  | loopQuit
  | objectUnref
  | gErrorFree
  | dbusErrorFree
  | print (line : String)
  | printerr (line : String)
deriving DecidableEq

/-- Undefined behaviour reached by the program: dereferencing a NULL
pointer (`p -> message` with `p == NULL`). -/
inductive Crash
  | nullDeref
deriving DecidableEq

/-- The bus double: results of the external calls the program makes.
`busGetConn` says whether `dbus_g_bus_get` returns a connection;
`busGetError` is what that call stores through its `&error` out-parameter;
`requestRetval` and `releaseRetval` are the integers returned by
`dbus_bus_request_name` and `dbus_bus_release_name`. -/
structure BusOracle where
  busGetConn : Bool
  busGetError : Option GError
  requestRetval : Int
  releaseRetval : Int
deriving DecidableEq

/-- One dispatch of the GLib main loop: either the armed timeout expires or
the daemon delivers the "NameLost" signal. -/
inductive LoopEvent
  | timerFired
  | nameLost
deriving DecidableEq

/-- `onNameLost` (dbus-signal.c lines 39-42): prints the loss notice on
stdout and calls `g_main_loop_quit`. -/
def onNameLostEvents : List Event :=
  [Event.print "!!! We lost our Name !!!\n", Event.loopQuit]

/-- The `switch(retval)` of `releaseName` (dbus-signal.c lines 66-78). -/
def releaseSwitch (retval : Int) : List Event :=
  if retval = DBUS_RELEASE_NAME_REPLY_RELEASED then
    [Event.printerr "releaseName(): Name org.DBusTest.SignalTest was released successfully\n"]
  else if retval = DBUS_RELEASE_NAME_REPLY_NOT_OWNER then
    [Event.printerr "releaseName(): Name org.DBusTest.SignalTest is not owned by this app!\n"]
  else if retval = DBUS_RELEASE_NAME_REPLY_NON_EXISTENT then
    [Event.printerr "releaseName(): Name org.DBusTest.SignalTest does not exist!\n"]
  else
    [Event.printerr ("releaseName(): Unknown exit status " ++ toString retval ++ "\n")]

/-- The `if( retval == -1)` block of `releaseName` (dbus-signal.c lines
80-90), parametric in the local `error` pointer the block reads. -/
def releaseErrCheck (retval : Int) (error : Option DBusError) : List Event :=
  if retval = -1 then
    match error with
    | none =>
        [Event.printerr "releaseName(): Something fishy. We got an exit status of -1 but error == NULL!\n"]
    | some e =>
        [Event.printerr ("Could not release name org.DBusTest.SignalTest: " ++ e.message ++ "\n"),
         Event.printerr "This program may not terminate...\n",
         Event.dbusErrorFree]
  else []

/-- Result of one invocation of the timer callback: its emitted events and
the `gboolean` it returns to GLib (reschedule the timeout or not). -/
structure ReleaseOutcome where
  events : List Event
  reschedule : Bool
deriving DecidableEq

/-- `releaseName` (dbus-signal.c lines 56-94): the local `DBusError *error`
is set to NULL and passed by value to `dbus_bus_release_name`, so it is
still NULL when the `retval == -1` block reads it.  Returns `false`
(`#define false 0`) so the main loop does not call it again. -/
def releaseName (retval : Int) : ReleaseOutcome :=
  let error : Option DBusError := none
  { events := Event.releaseNameCall "org.DBusTest.SignalTest" error ::
      (releaseSwitch retval ++ releaseErrCheck retval error),
    reschedule := false }

/-- The `switch(retval)` on the result of `dbus_bus_request_name`
(dbus-signal.c lines 142-163), parametric in the `dbuserror` pointer the
`-1` branch dereferences; `dbuserror -> message` with `dbuserror == NULL`
is the crash. -/
def requestSwitch (retval : Int) (dbuserror : Option DBusError) :
    Except Crash (List Event) :=
  if retval = -1 then
    match dbuserror with
    | none => Except.error Crash.nullDeref
    | some e =>
        Except.ok
          [Event.printerr ("Couldn't acquire name org.DBusTest.SignalTest for our connection: " ++ e.message ++ "\n"),
           Event.printerr "This program may not terminate as a result of this error!\n",
           Event.dbusErrorFree]
  else if retval = DBUS_REQUEST_NAME_REPLY_PRIMARY_OWNER then
    Except.ok [Event.printerr "dbus_bus_request_name(): We now own the name org.DBusTest.SignalTest!\n"]
  else if retval = DBUS_REQUEST_NAME_REPLY_IN_QUEUE then
    Except.ok [Event.printerr "dbus_bus_request_name(): We are standing in queue for our name!\n"]
  else if retval = DBUS_REQUEST_NAME_REPLY_EXISTS then
    Except.ok [Event.printerr "dbus_bus_request_name(): :-( The name we asked for already exists!\n"]
  else if retval = DBUS_REQUEST_NAME_REPLY_ALREADY_OWNER then
    Except.ok [Event.printerr "dbus_bus_request_name(): Eh? We already own this name!\n"]
  else
    Except.ok [Event.printerr ("dbus_bus_request_name(): Unknown result = " ++ toString retval ++ "\n")]

/-- `g_main_loop_run` (dbus-signal.c line 180): dispatches the pending loop
events in order.  A timeout expiry runs `releaseName` while the timeout
source is still installed (`active`); since the callback returns `false`,
the source is removed and later expiries dispatch nothing.  A "NameLost"
delivery runs `onNameLost`, whose `g_main_loop_quit` makes the loop return
(second component `true`).  If the events run out without a quit, the loop
is still blocked (second component `false`). -/
def runLoop (o : BusOracle) : List LoopEvent → Bool → List Event × Bool
  | [], _ => ([], false)
  | LoopEvent.timerFired :: rest, active =>
      if active then
        let r := releaseName o.releaseRetval
        let p := runLoop o rest r.reschedule
        (r.events ++ p.1, p.2)
      else runLoop o rest active
  | LoopEvent.nameLost :: _, _ => (onNameLostEvents, true)

/-- Outcome of a whole process run: normal termination with an exit status,
a loop that never returns, or a crash (undefined behaviour). -/
inductive MainResult
  | exited (trace : List Event) (code : Int)
  | hung (trace : List Event)
  | crashed (trace : List Event) (c : Crash)
deriving DecidableEq

/-- The events observed before the run ended, whichever way it ended. -/
def traceOf : MainResult → List Event
  | MainResult.exited t _ => t
  | MainResult.hung t => t
  | MainResult.crashed t _ => t

/-- `main` (dbus-signal.c lines 111-186), driven by the bus oracle and the
loop events.  Mirrors the source line by line: `dbus_g_bus_get` with
`&error` (failure branch prints `error -> message` and exits 1);
`dbus_g_connection_get_connection`; `dbus_bus_request_name` with the NULL
`dbuserror` passed by value; the proxy/signal setup; `g_timeout_add(1000,
releaseName, sigcon)`; `g_main_loop_run`; `g_object_unref(proxy)`;
`return 0`. -/
def main (o : BusOracle) (loopEvents : List LoopEvent) : MainResult :=
  let t0 := [Event.gTypeInit, Event.busGetCall DBusBusType.session]
  if o.busGetConn then
    let t1 := t0 ++ [Event.getConnection]
    let dbuserror : Option DBusError := none
    let t2 := t1 ++ [Event.requestNameCall "org.DBusTest.SignalTest"
      DBUS_NAME_FLAG_ALLOW_REPLACEMENT dbuserror]
    match requestSwitch o.requestRetval dbuserror with
    | Except.error c => MainResult.crashed t2 c
    | Except.ok evs =>
      let t3 := t2 ++ evs ++
        [Event.mainLoopNew,
         Event.proxyNew "org.freedesktop.DBus" "/org/freedesktop/DBus" "org.freedesktop.DBus",
         Event.addSignal "NameLost" [GType.gstring],
         Event.connectSignal "NameLost" none,
         Event.timeoutAdd 1000,
         Event.loopRun]
      let p := runLoop o loopEvents true
      if p.2 then MainResult.exited (t3 ++ p.1 ++ [Event.objectUnref]) 0
      else MainResult.hung (t3 ++ p.1)
  else
    match o.busGetError with
    | none => MainResult.crashed t0 Crash.nullDeref
    | some e =>
        MainResult.exited
          (t0 ++ [Event.printerr ("Failed to connect to Session bus: " ++ e.message ++ "\n"),
                  Event.gErrorFree]) 1

/-! Helper predicates over events, used to state the claims. -/

/-- Recognises a `dbus_bus_release_name` call event. -/
def isReleaseCall : Event → Bool
  | Event.releaseNameCall _ _ => true
  | _ => false

/-- Recognises a `dbus_g_proxy_connect_signal` call event. -/
def isConnectSignal : Event → Bool
  | Event.connectSignal _ _ => true
  | _ => false

/-- Recognises a `dbus_g_proxy_disconnect_signal` call event. -/
def isDisconnectSignal : Event → Bool
  | Event.disconnectSignal _ => true
  | _ => false

/-- Recognises any bus call that comes after the initial connection
attempt: name request, name release, proxy creation, signal
subscription or unsubscription. -/
def isSubsequentBusCall : Event → Bool
  | Event.requestNameCall _ _ _ => true
  | Event.releaseNameCall _ _ => true
  | Event.proxyNew _ _ _ => true
  | Event.addSignal _ _ => true
  | Event.connectSignal _ _ => true
  | Event.disconnectSignal _ => true
  | _ => false

/-- The kinds of events the main loop's callbacks can emit: release
calls, output lines, freeing a `DBusError`, and quitting the loop. -/
def isLoopEmit : Event → Bool
  | Event.releaseNameCall _ _ => true
  | Event.print _ => true
  | Event.printerr _ => true
  | Event.dbusErrorFree => true
  | Event.loopQuit => true
  | _ => false

/-- Boolean subsequence test: the first list occurs in the second, in
order, not necessarily contiguously. -/
def subseqB : List Event → List Event → Bool
  | [], _ => true
  | _ :: _, [] => false
  | a :: as, b :: bs => if a = b then subseqB as bs else subseqB (a :: as) bs

/-- The pre-loop trace of a run that reaches the loop: everything `main`
emits up to and including `g_main_loop_run`; `s` is the line the
request-name `switch` printed. -/
def preLoopTrace (s : String) : List Event :=
  [Event.gTypeInit, Event.busGetCall DBusBusType.session, Event.getConnection,
   Event.requestNameCall "org.DBusTest.SignalTest" DBUS_NAME_FLAG_ALLOW_REPLACEMENT none,
   Event.printerr s, Event.mainLoopNew,
   Event.proxyNew "org.freedesktop.DBus" "/org/freedesktop/DBus" "org.freedesktop.DBus",
   Event.addSignal "NameLost" [GType.gstring],
   Event.connectSignal "NameLost" none,
   Event.timeoutAdd 1000, Event.loopRun]

/-! Helper lemmas. -/

/-- Every event the release `switch` emits is a stderr line. -/
theorem releaseSwitch_mem (r : Int) :
    ∀ ev ∈ releaseSwitch r, ∃ s, ev = Event.printerr s := by
  unfold releaseSwitch
  split
  · intro ev h; simp at h; exact ⟨_, h⟩
  · split
    · intro ev h; simp at h; exact ⟨_, h⟩
    · split
      · intro ev h; simp at h; exact ⟨_, h⟩
      · intro ev h; simp at h; exact ⟨_, h⟩

/-- With a NULL error pointer, every event the `retval == -1` block emits
is a stderr line. -/
theorem releaseErrCheck_none_mem (r : Int) :
    ∀ ev ∈ releaseErrCheck r none, ∃ s, ev = Event.printerr s := by
  unfold releaseErrCheck
  split
  · intro ev h; simp at h; exact ⟨_, h⟩
  · intro ev h; simp at h

/-- Every event one `releaseName` invocation emits is a loop-callback
event. -/
theorem releaseName_mem (r : Int) :
    ∀ ev ∈ (releaseName r).events, isLoopEmit ev = true := by
  intro ev h
  simp only [releaseName, List.mem_cons, List.mem_append] at h
  rcases h with h | h | h
  · subst h; rfl
  · obtain ⟨s, rfl⟩ := releaseSwitch_mem r ev h; rfl
  · obtain ⟨s, rfl⟩ := releaseErrCheck_none_mem r ev h; rfl

/-- One `releaseName` invocation performs exactly one release call. -/
theorem releaseName_filter_release (r : Int) :
    (releaseName r).events.filter isReleaseCall =
      [Event.releaseNameCall "org.DBusTest.SignalTest" none] := by
  simp only [releaseName, List.filter_cons, List.filter_append]
  rw [List.filter_eq_nil_iff.2, List.filter_eq_nil_iff.2] <;> try rfl
  · intro ev h
    obtain ⟨s, rfl⟩ := releaseErrCheck_none_mem r ev h
    simp [isReleaseCall]
  · intro ev h
    obtain ⟨s, rfl⟩ := releaseSwitch_mem r ev h
    simp [isReleaseCall]

/-- Every event the loop run emits is a loop-callback event. -/
theorem runLoop_mem (o : BusOracle) (l : List LoopEvent) (b : Bool) :
    ∀ ev ∈ (runLoop o l b).1, isLoopEmit ev = true := by
  induction l generalizing b with
  | nil => intro ev h; simp [runLoop] at h
  | cons le rest ih =>
    cases le with
    | timerFired =>
      cases b with
      | false =>
        intro ev h
        simp only [runLoop, Bool.false_eq_true, if_false] at h
        exact ih false ev h
      | true =>
        intro ev h
        simp only [runLoop, if_true] at h
        rcases List.mem_append.1 h with h | h
        · exact releaseName_mem _ ev h
        · exact ih _ ev h
    | nameLost =>
      intro ev h
      simp only [runLoop, onNameLostEvents, List.mem_cons, List.not_mem_nil, or_false] at h
      rcases h with rfl | rfl <;> rfl

/-- A fired timeout whose source was already removed dispatches no
release call. -/
theorem runLoop_inactive_filter (o : BusOracle) (l : List LoopEvent) :
    (runLoop o l false).1.filter isReleaseCall = [] := by
  induction l with
  | nil => rfl
  | cons le rest ih =>
    cases le with
    | timerFired => simpa only [runLoop, Bool.false_eq_true, if_false] using ih
    | nameLost => rfl

/-- Through one whole loop run, the release call happens at most once:
the first timeout dispatch removes the source (the callback returned
`false`), so no later loop event can invoke it again. -/
theorem runLoop_release_count (o : BusOracle) (l : List LoopEvent) (b : Bool) :
    ((runLoop o l b).1.filter isReleaseCall).length ≤ 1 := by
  induction l generalizing b with
  | nil => simp [runLoop]
  | cons le rest ih =>
    cases le with
    | timerFired =>
      cases b with
      | false =>
        simp only [runLoop, Bool.false_eq_true, if_false]
        exact ih false
      | true =>
        simp only [runLoop, if_true, List.filter_append, List.length_append]
        rw [releaseName_filter_release]
        have hres : (releaseName o.releaseRetval).reschedule = false := rfl
        rw [hres, runLoop_inactive_filter]
        simp
    | nameLost =>
      simp [runLoop, onNameLostEvents, isReleaseCall]

/-- When the request result is not `-1`, the request `switch` with the
NULL `dbuserror` prints exactly one stderr line. -/
theorem requestSwitch_singleton (r : Int) (h : r ≠ -1) :
    ∃ s, requestSwitch r none = Except.ok [Event.printerr s] := by
  unfold requestSwitch
  rw [if_neg h]
  split
  · exact ⟨_, rfl⟩
  · split
    · exact ⟨_, rfl⟩
    · split
      · exact ⟨_, rfl⟩
      · split
        · exact ⟨_, rfl⟩
        · exact ⟨_, rfl⟩

/-- Shape of `main` on runs that get a connection and a non-`-1` request
result: the fixed pre-loop trace, then the loop events, then (when the
loop was quit) the proxy unref and exit status 0, or else a hang. -/
theorem main_ok_decomp (o : BusOracle) (l : List LoopEvent)
    (h1 : o.busGetConn = true) (h2 : o.requestRetval ≠ -1) :
    ∃ s,
      main o l =
        if (runLoop o l true).2 then
          MainResult.exited (preLoopTrace s ++ (runLoop o l true).1 ++ [Event.objectUnref]) 0
        else MainResult.hung (preLoopTrace s ++ (runLoop o l true).1) := by
  obtain ⟨s, hs⟩ := requestSwitch_singleton o.requestRetval h2
  refine ⟨s, ?_⟩
  unfold main
  rw [h1]
  simp only [hs]
  by_cases hq : (runLoop o l true).2 <;>
    simp [hq, preLoopTrace, List.append_assoc]

/-- Shape of `main` on runs whose connection attempt fails with the error
out-parameter set: report, free the error, exit 1. -/
theorem main_connfail_eq (o : BusOracle) (l : List LoopEvent) (e : GError)
    (h1 : o.busGetConn = false) (h2 : o.busGetError = some e) :
    main o l = MainResult.exited
      [Event.gTypeInit, Event.busGetCall DBusBusType.session,
       Event.printerr ("Failed to connect to Session bus: " ++ e.message ++ "\n"),
       Event.gErrorFree] 1 := by
  unfold main
  rw [h1, h2]
  rfl

/-- Shape of `main` on runs that get a connection but a `-1` request
result: the program crashes dereferencing the NULL `dbuserror` while
formatting the failure warning. -/
theorem main_crash_eq (o : BusOracle) (l : List LoopEvent)
    (h1 : o.busGetConn = true) (h2 : o.requestRetval = -1) :
    main o l = MainResult.crashed
      [Event.gTypeInit, Event.busGetCall DBusBusType.session, Event.getConnection,
       Event.requestNameCall "org.DBusTest.SignalTest" DBUS_NAME_FLAG_ALLOW_REPLACEMENT none]
      Crash.nullDeref := by
  unfold main requestSwitch
  rw [h1, h2]
  rfl

/-- Shape of `main` when the connection fails and the out-parameter was
left NULL: the failure report itself dereferences NULL. -/
theorem main_connfail_none (o : BusOracle) (l : List LoopEvent)
    (h1 : o.busGetConn = false) (h2 : o.busGetError = none) :
    main o l = MainResult.crashed
      [Event.gTypeInit, Event.busGetCall DBusBusType.session] Crash.nullDeref := by
  unfold main
  rw [h1, h2]
  rfl

/-! The claims. -/

/-- Claim C1 (the code contradicts it): on an execution where the name
request for "org.DBusTest.SignalTest" returns the failure sentinel `-1`,
the program does not log the warning and continue into the rest of `main`;
it crashes dereferencing the NULL `dbuserror` pointer (initialised to NULL
and passed to `dbus_bus_request_name` by value, so never filled in) while
formatting the warning line. -/
theorem c1_request_failure_crashes_not_continues :
    main ⟨true, none, -1, DBUS_RELEASE_NAME_REPLY_RELEASED⟩ [] =
      MainResult.crashed
        [Event.gTypeInit, Event.busGetCall DBusBusType.session, Event.getConnection,
         Event.requestNameCall "org.DBusTest.SignalTest" DBUS_NAME_FLAG_ALLOW_REPLACEMENT none]
        Crash.nullDeref := by
  decide

/-- Claim C2: if `dbus_g_bus_get` yields no connection (and set the error
out-parameter), the process prints the failure reason to stderr, frees the
error and exits with status 1, performing no subsequent bus call: no name
request, no proxy, no subscription, no release. -/
theorem c2_connection_failure_exits_1 (o : BusOracle) (l : List LoopEvent) (e : GError)
    (h1 : o.busGetConn = false) (h2 : o.busGetError = some e) :
    main o l = MainResult.exited
      [Event.gTypeInit, Event.busGetCall DBusBusType.session,
       Event.printerr ("Failed to connect to Session bus: " ++ e.message ++ "\n"),
       Event.gErrorFree] 1 ∧
    (traceOf (main o l)).filter isSubsequentBusCall = [] := by
  have hm := main_connfail_eq o l e h1 h2
  refine ⟨hm, ?_⟩
  rw [hm]
  rfl

/-- Witness for C2 at a concrete oracle whose connection attempt fails. -/
theorem c2_connection_failure_exits_1_witness :
    main ⟨false, some (GError.mk "boom"), 1, 1⟩ [] = MainResult.exited
      [Event.gTypeInit, Event.busGetCall DBusBusType.session,
       Event.printerr ("Failed to connect to Session bus: " ++ (GError.mk "boom").message ++ "\n"),
       Event.gErrorFree] 1 ∧
    (traceOf (main ⟨false, some (GError.mk "boom"), 1, 1⟩ [])).filter isSubsequentBusCall = [] :=
  c2_connection_failure_exits_1 ⟨false, some (GError.mk "boom"), 1, 1⟩ [] (GError.mk "boom") rfl rfl

/-- Claim C3: in the `retval == -1` block of `releaseName`, an absent
(NULL) error detail yields the internal-inconsistency line, while a present
error detail yields its message together with the may-never-terminate
warning; an actual `releaseName(-1)` invocation logs the inconsistency
line. -/
theorem c3_release_failure_branches :
    releaseErrCheck (-1) none =
      [Event.printerr "releaseName(): Something fishy. We got an exit status of -1 but error == NULL!\n"] ∧
    (∀ e : DBusError, releaseErrCheck (-1) (some e) =
      [Event.printerr ("Could not release name org.DBusTest.SignalTest: " ++ e.message ++ "\n"),
       Event.printerr "This program may not terminate...\n",
       Event.dbusErrorFree]) ∧
    Event.printerr "releaseName(): Something fishy. We got an exit status of -1 but error == NULL!\n"
      ∈ (releaseName (-1)).events := by
  refine ⟨rfl, fun e => rfl, ?_⟩
  decide

/-- Claim C4: the release callback is registered as a 1000 ms timeout,
`releaseName` answers "do not reschedule" on every result branch, and in
consequence no run performs the release call more than once, however many
timer expiries the loop sees. -/
theorem c4_timer_one_shot :
    (∀ retval : Int, (releaseName retval).reschedule = false) ∧
    (∀ (o : BusOracle) (l : List LoopEvent), o.busGetConn = true → o.requestRetval ≠ -1 →
      Event.timeoutAdd 1000 ∈ traceOf (main o l)) ∧
    (∀ (o : BusOracle) (l : List LoopEvent),
      ((traceOf (main o l)).filter isReleaseCall).length ≤ 1) := by
  refine ⟨fun retval => rfl, ?_, ?_⟩
  · intro o l h1 h2
    obtain ⟨s, hd⟩ := main_ok_decomp o l h1 h2
    rw [hd]
    by_cases hq : (runLoop o l true).2 <;> simp [hq, traceOf, preLoopTrace]
  · intro o l
    by_cases h1 : o.busGetConn = true
    · by_cases h2 : o.requestRetval = -1
      · rw [main_crash_eq o l h1 h2]
        decide
      · obtain ⟨s, hd⟩ := main_ok_decomp o l h1 h2
        rw [hd]
        have hr := runLoop_release_count o l true
        by_cases hq : (runLoop o l true).2 <;>
          simpa [hq, traceOf, preLoopTrace, List.filter_append, isReleaseCall] using hr
    · have h1f : o.busGetConn = false := by simpa using h1
      cases he : o.busGetError with
      | none =>
        rw [main_connfail_none o l h1f he]
        decide
      | some e =>
        rw [main_connfail_eq o l e h1f he]
        simp [traceOf, isReleaseCall]

/-- Witness for C4 at concrete inputs, with two timer expiries fed to the
loop. -/
theorem c4_timer_one_shot_witness :
    (releaseName 1).reschedule = false ∧
    Event.timeoutAdd 1000 ∈ traceOf (main ⟨true, none, 1, 1⟩ []) ∧
    ((traceOf (main ⟨true, none, 1, 1⟩ [LoopEvent.timerFired, LoopEvent.timerFired])).filter
      isReleaseCall).length ≤ 1 :=
  ⟨c4_timer_one_shot.1 1,
   c4_timer_one_shot.2.1 ⟨true, none, 1, 1⟩ [] rfl (by decide),
   c4_timer_one_shot.2.2 ⟨true, none, 1, 1⟩ [LoopEvent.timerFired, LoopEvent.timerFired]⟩

/-- Claim C5: in the end-to-end success scenario (PrimaryOwner on request,
Released on release, then a NameLost delivery) the output stream carries
the "we now own the name" line, then the "released successfully" line,
then the "we lost our Name" line, in this order, followed by the loop
quitting, and the run exits with status 0. -/
theorem c5_success_scenario_order :
    ∃ tr,
      main ⟨true, none, DBUS_REQUEST_NAME_REPLY_PRIMARY_OWNER, DBUS_RELEASE_NAME_REPLY_RELEASED⟩
          [LoopEvent.timerFired, LoopEvent.nameLost] = MainResult.exited tr 0 ∧
      subseqB
        [Event.printerr "dbus_bus_request_name(): We now own the name org.DBusTest.SignalTest!\n",
         Event.printerr "releaseName(): Name org.DBusTest.SignalTest was released successfully\n",
         Event.print "!!! We lost our Name !!!\n",
         Event.loopQuit] tr = true :=
  ⟨[Event.gTypeInit, Event.busGetCall DBusBusType.session, Event.getConnection,
    Event.requestNameCall "org.DBusTest.SignalTest" DBUS_NAME_FLAG_ALLOW_REPLACEMENT none,
    Event.printerr "dbus_bus_request_name(): We now own the name org.DBusTest.SignalTest!\n",
    Event.mainLoopNew,
    Event.proxyNew "org.freedesktop.DBus" "/org/freedesktop/DBus" "org.freedesktop.DBus",
    Event.addSignal "NameLost" [GType.gstring],
    Event.connectSignal "NameLost" none,
    Event.timeoutAdd 1000, Event.loopRun,
    Event.releaseNameCall "org.DBusTest.SignalTest" none,
    Event.printerr "releaseName(): Name org.DBusTest.SignalTest was released successfully\n",
    Event.print "!!! We lost our Name !!!\n", Event.loopQuit,
    Event.objectUnref], by decide, by decide⟩

/-- Claim C6: a run that terminates by itself does so with status 0 after
the loop is quit, or with status 1 when the initial connection failed; no
other exit status is produced. -/
theorem c6_exit_codes (o : BusOracle) (l : List LoopEvent) (tr : List Event) (code : Int)
    (h : main o l = MainResult.exited tr code) :
    (code = 0 ∨ code = 1) ∧ (code = 1 ↔ o.busGetConn = false) := by
  by_cases h1 : o.busGetConn = true
  · by_cases h2 : o.requestRetval = -1
    · rw [main_crash_eq o l h1 h2] at h
      exact MainResult.noConfusion h
    · obtain ⟨s, hd⟩ := main_ok_decomp o l h1 h2
      rw [hd] at h
      by_cases hq : (runLoop o l true).2
      · rw [if_pos hq] at h
        injection h with h3 h4
        refine ⟨Or.inl h4.symm, ?_⟩
        constructor
        · intro hc
          rw [← h4] at hc
          exact absurd hc (by decide)
        · intro hf
          rw [h1] at hf
          exact absurd hf (by decide)
      · rw [if_neg hq] at h
        exact MainResult.noConfusion h
  · have h1f : o.busGetConn = false := by simpa using h1
    cases he : o.busGetError with
    | none =>
      rw [main_connfail_none o l h1f he] at h
      exact MainResult.noConfusion h
    | some e =>
      rw [main_connfail_eq o l e h1f he] at h
      injection h with h3 h4
      exact ⟨Or.inr h4.symm, by simp [← h4, h1f]⟩

/-- Witness for C6 at a concrete failing connection, exit status 1. -/
theorem c6_exit_codes_witness :
    (((1 : Int) = 0) ∨ ((1 : Int) = 1)) ∧
    (((1 : Int) = 1) ↔ (BusOracle.mk false (some (GError.mk "x")) 1 1).busGetConn = false) :=
  c6_exit_codes ⟨false, some (GError.mk "x"), 1, 1⟩ []
    [Event.gTypeInit, Event.busGetCall DBusBusType.session,
     Event.printerr "Failed to connect to Session bus: x\n", Event.gErrorFree] 1
    (by decide)

/-- Claim C7: dispatching a NameLost delivery runs `onNameLost`, which on
every possible input (any oracle, any pending events, any timer state)
prints the loss notice and requests the loop to stop; there is no input on
which it fails or skips the stop request. -/
theorem c7_name_lost_always_quits (o : BusOracle) (rest : List LoopEvent) (active : Bool) :
    (runLoop o (LoopEvent.nameLost :: rest) active).2 = true ∧
    Event.print "!!! We lost our Name !!!\n" ∈ (runLoop o (LoopEvent.nameLost :: rest) active).1 ∧
    Event.loopQuit ∈ (runLoop o (LoopEvent.nameLost :: rest) active).1 := by
  refine ⟨rfl, ?_, ?_⟩ <;> simp [runLoop, onNameLostEvents]

/-- Claim C8: on every run that reaches the loop, the trace starts with the
fixed pre-loop prefix — one proxy for service "org.freedesktop.DBus", path
"/org/freedesktop/DBus", interface "org.freedesktop.DBus", one
`addSignal "NameLost"` with a single string-typed argument, one
`connectSignal "NameLost"` with no context pointer, all before
`g_main_loop_run` — the whole run contains exactly that one subscription
call, contains no unsubscribe call at all, the loop emits no proxy unref,
and a run that exits unrefs the proxy as its very last event. -/
theorem c8_single_subscription (o : BusOracle) (l : List LoopEvent)
    (h1 : o.busGetConn = true) (h2 : o.requestRetval ≠ -1) :
    (∃ s rest, traceOf (main o l) = preLoopTrace s ++ rest) ∧
    (traceOf (main o l)).filter isConnectSignal = [Event.connectSignal "NameLost" none] ∧
    (traceOf (main o l)).filter isDisconnectSignal = [] ∧
    Event.objectUnref ∉ (runLoop o l true).1 ∧
    (∀ tr code, main o l = MainResult.exited tr code → tr.getLast? = some Event.objectUnref) := by
  obtain ⟨s, hd⟩ := main_ok_decomp o l h1 h2
  have hfC : (runLoop o l true).1.filter isConnectSignal = [] := by
    refine List.filter_eq_nil_iff.2 ?_
    intro ev h
    have hle := runLoop_mem o l true ev h
    cases ev <;> simp_all [isLoopEmit, isConnectSignal]
  have hfD : (runLoop o l true).1.filter isDisconnectSignal = [] := by
    refine List.filter_eq_nil_iff.2 ?_
    intro ev h
    have hle := runLoop_mem o l true ev h
    cases ev <;> simp_all [isLoopEmit, isDisconnectSignal]
  have hU : Event.objectUnref ∉ (runLoop o l true).1 := by
    intro h
    have hle := runLoop_mem o l true _ h
    simp [isLoopEmit] at hle
  refine ⟨?_, ?_, ?_, hU, ?_⟩
  · rw [hd]
    by_cases hq : (runLoop o l true).2
    · exact ⟨s, (runLoop o l true).1 ++ [Event.objectUnref],
        by simp [hq, traceOf, List.append_assoc]⟩
    · exact ⟨s, (runLoop o l true).1, by simp [hq, traceOf]⟩
  · rw [hd]
    by_cases hq : (runLoop o l true).2 <;>
      simp [hq, traceOf, List.filter_append, hfC, preLoopTrace, isConnectSignal]
  · rw [hd]
    by_cases hq : (runLoop o l true).2 <;>
      simp [hq, traceOf, List.filter_append, hfD, preLoopTrace, isDisconnectSignal]
  · intro tr code h
    rw [hd] at h
    by_cases hq : (runLoop o l true).2
    · rw [if_pos hq] at h
      injection h with h3 h4
      rw [← h3, List.getLast?_append_of_ne_nil]
      · rfl
      · simp
    · rw [if_neg hq] at h
      exact MainResult.noConfusion h

/-- Witness for C8, on the concrete success scenario. -/
theorem c8_single_subscription_witness :
    (∃ s rest,
      traceOf (main ⟨true, none, 1, 1⟩ [LoopEvent.timerFired, LoopEvent.nameLost]) =
        preLoopTrace s ++ rest) ∧
    (traceOf (main ⟨true, none, 1, 1⟩ [LoopEvent.timerFired, LoopEvent.nameLost])).filter
        isConnectSignal = [Event.connectSignal "NameLost" none] ∧
    (traceOf (main ⟨true, none, 1, 1⟩ [LoopEvent.timerFired, LoopEvent.nameLost])).filter
        isDisconnectSignal = [] ∧
    Event.objectUnref ∉ (runLoop ⟨true, none, 1, 1⟩ [LoopEvent.timerFired, LoopEvent.nameLost] true).1 ∧
    (∀ tr code,
      main ⟨true, none, 1, 1⟩ [LoopEvent.timerFired, LoopEvent.nameLost] =
        MainResult.exited tr code → tr.getLast? = some Event.objectUnref) :=
  c8_single_subscription ⟨true, none, 1, 1⟩ [LoopEvent.timerFired, LoopEvent.nameLost]
    rfl (by decide)

/-- Claim C9 (the code contradicts it): on every execution that reaches
the name-acquisition failure branch, the error pointer read for the
diagnostic line is NULL — `dbuserror` is initialised to NULL and passed to
`dbus_bus_request_name` by value, so the call cannot set it — and the
branch's `dbuserror -> message` read is a NULL dereference, crashing the
run right after the request call. -/
theorem c9_request_error_read_dereferences_null (o : BusOracle) (l : List LoopEvent)
    (h1 : o.busGetConn = true) (h2 : o.requestRetval = -1) :
    requestSwitch o.requestRetval none = Except.error Crash.nullDeref ∧
    main o l = MainResult.crashed
      [Event.gTypeInit, Event.busGetCall DBusBusType.session, Event.getConnection,
       Event.requestNameCall "org.DBusTest.SignalTest" DBUS_NAME_FLAG_ALLOW_REPLACEMENT none]
      Crash.nullDeref :=
  ⟨by rw [h2]; rfl, main_crash_eq o l h1 h2⟩

/-- Witness for C9 at a concrete oracle whose name request fails. -/
theorem c9_request_error_read_dereferences_null_witness :
    requestSwitch (BusOracle.mk true none (-1) 2).requestRetval none =
      Except.error Crash.nullDeref ∧
    main ⟨true, none, -1, 2⟩ [LoopEvent.timerFired] = MainResult.crashed
      [Event.gTypeInit, Event.busGetCall DBusBusType.session, Event.getConnection,
       Event.requestNameCall "org.DBusTest.SignalTest" DBUS_NAME_FLAG_ALLOW_REPLACEMENT none]
      Crash.nullDeref :=
  c9_request_error_read_dereferences_null ⟨true, none, -1, 2⟩ [LoopEvent.timerFired] rfl rfl

/-- Claim C10: every `releaseName` invocation passes a NULL error pointer
to `dbus_bus_release_name`; at the `-1` sentinel the branch taken is the
internal-inconsistency one, and the branch that would print the error's
message, warn about non-termination and free the error (the only emitter
of `dbusErrorFree`) never runs on any result value. -/
theorem c10_release_error_pointer_always_null :
    (∀ retval : Int, (releaseName retval).events.head? =
      some (Event.releaseNameCall "org.DBusTest.SignalTest" none)) ∧
    (releaseName (-1)).events =
      [Event.releaseNameCall "org.DBusTest.SignalTest" none,
       Event.printerr "releaseName(): Unknown exit status -1\n",
       Event.printerr "releaseName(): Something fishy. We got an exit status of -1 but error == NULL!\n"] ∧
    (∀ retval : Int, Event.printerr "This program may not terminate...\n"
      ∉ (releaseName retval).events) ∧
    (∀ retval : Int, Event.dbusErrorFree ∉ (releaseName retval).events) := by
  have hne : ∀ t : String, ("This program may not terminate...\n" : String) ≠
      "releaseName(): Unknown exit status " ++ t ++ "\n" := by
    intro t h'
    have hh : ("This program may not terminate...\n" : String).data.head? =
        ("releaseName(): Unknown exit status " ++ t ++ "\n" : String).data.head? := by rw [h']
    have hL : ("This program may not terminate...\n" : String).data.head? = some 'T' := rfl
    have hR : ("releaseName(): Unknown exit status " ++ t ++ "\n" : String).data.head? =
        some 'r' := rfl
    rw [hL, hR] at hh
    exact absurd hh (by decide)
  refine ⟨fun retval => rfl, by decide, ?_, ?_⟩
  · intro retval h
    simp only [releaseName, List.mem_cons, List.mem_append] at h
    rcases h with h | h | h
    · exact Event.noConfusion h
    · revert h
      unfold releaseSwitch
      split
      · intro h; exact absurd (List.mem_singleton.1 h) (by decide)
      · split
        · intro h; exact absurd (List.mem_singleton.1 h) (by decide)
        · split
          · intro h; exact absurd (List.mem_singleton.1 h) (by decide)
          · intro h
            have hs := List.mem_singleton.1 h
            have : ("This program may not terminate...\n" : String) =
                "releaseName(): Unknown exit status " ++ toString retval ++ "\n" := by
              injection hs
            exact hne (toString retval) this
    · revert h
      unfold releaseErrCheck
      split
      · intro h; exact absurd (List.mem_singleton.1 h) (by decide)
      · intro h; exact absurd h (List.not_mem_nil _)
  · intro retval h
    simp only [releaseName, List.mem_cons, List.mem_append] at h
    rcases h with h | h | h
    · exact Event.noConfusion h
    · obtain ⟨s, hs⟩ := releaseSwitch_mem retval _ h
      exact Event.noConfusion (hs ▸ rfl : Event.dbusErrorFree = Event.printerr s)
    · obtain ⟨s, hs⟩ := releaseErrCheck_none_mem retval _ h
      exact Event.noConfusion (hs ▸ rfl : Event.dbusErrorFree = Event.printerr s)

end DBusSignal
